import Mathlib

/-!
Verification of the WebSocket++ server role (`src/roles/server.hpp`).

The development shallowly embeds the per-connection handshake state machine
of `websocketpp::role::server::connection`: reading and classifying the
HTTP upgrade request (`handle_read_request`), the subprotocol/extension
negotiation setters (`select_subprotocol`, `select_extension`), response
assembly (`write_response`) and post-write disposition
(`handle_write_response`, `log_open_result`).

External collaborators (the HTTP message model, the hybi processor, the
`uri` value class and the application-supplied handler) are modelled at
their interface boundary; their definitions carry a doc comment saying so.
Machine integers are modelled with `Int`/`Nat`; C++ exceptions become
`Except`-style results with explicit partial-state threading, so that a
header added before a `throw` survives into the `catch` block exactly as
in the source.
-/

namespace WebsocketppServer

/-! ### Character and string helpers (ASCII case folding, C `atoi`) -/

/-- Case-insensitive equality of two header keys, as provided by the external
HTTP message model (`boost::algorithm` style ASCII case folding). -/
def lowerKey (s : String) : List Char :=
  s.data.map Char.toLower

/-- Modelled from the spec: the HTTP message model performs case-insensitive
header lookup; two keys match when they agree up to ASCII case. -/
def ikey (a b : String) : Bool :=
  lowerKey a == lowerKey b

/-- Case-insensitive character equality used by `boost::ifind_first`. -/
def lcEq (a b : Char) : Bool :=
  a.toLower == b.toLower

/-- Does `needle` occur at the head of `hay`, up to ASCII case? -/
def iHeadMatch : List Char → List Char → Bool
  | [], _ => true
  | _ :: _, [] => false
  | a :: as, b :: bs => lcEq a b && iHeadMatch as bs

/-- Case-insensitive substring occurrence over character lists. -/
def iOccurs (needle : List Char) : List Char → Bool
  | [] => needle.isEmpty
  | c :: cs => iHeadMatch needle (c :: cs) || iOccurs needle cs

/-- `boost::ifind_first(hay, needle)` used as a boolean: case-insensitive
substring search (line 185 of `server.hpp`). -/
def ifind_first (hay needle : String) : Bool :=
  iOccurs needle.data hay.data

/-- C whitespace, as skipped by `atoi`. -/
def isCSpace (c : Char) : Bool :=
  c == ' ' || c == '\t' || c == '\n' || c == '\r' || c == '\x0b' || c == '\x0c'

/-- Accumulate a digit run, stopping at the first non-digit (C-style). -/
def digitsAcc : List Char → Int → Int
  | [], acc => acc
  | c :: cs, acc =>
    if c.isDigit then digitsAcc cs (acc * 10 + (c.toNat - 48 : Int)) else acc

/-- C `atoi`: skip leading whitespace, optional sign, then a digit run;
a string with no leading digits parses to 0 (line 192 of `server.hpp`). -/
def atoi (s : String) : Int :=
  match s.data.dropWhile isCSpace with
  | '-' :: rest => - digitsAcc rest 0
  | '+' :: rest => digitsAcc rest 0
  | rest => digitsAcc rest 0

/-- Index of the first `':'` in a string (`std::string::find`), `none` for
`npos` (line 230 of `server.hpp`). -/
def findColonAux : List Char → Nat → Option Nat
  | [], _ => none
  | c :: cs, i => if c == ':' then some i else findColonAux cs (i + 1)

def findColon (s : String) : Option Nat :=
  findColonAux s.data 0

/-- `s.substr(0, n)` as a Lean string. -/
def strTake (s : String) (n : Nat) : String :=
  ⟨s.data.take n⟩

/-- `s.substr(n)` as a Lean string. -/
def strDropFrom (s : String) (n : Nat) : String :=
  ⟨s.data.drop n⟩

/-! ### HTTP message model (external collaborator, interface boundary) -/

/-- Modelled from the spec: header list lookup is case-insensitive and an
absent header reads as the empty string. -/
def getHeader (hs : List (String × String)) (k : String) : String :=
  match hs with
  | [] => ""
  | p :: t => if ikey p.1 k then p.2 else getHeader t k

/-- Is a header with the given (case-insensitive) key present? -/
def hasHeader (hs : List (String × String)) (k : String) : Bool :=
  match hs with
  | [] => false
  | p :: t => ikey p.1 k || hasHeader t k

/-- Drop every pair whose key matches `k` case-insensitively. -/
def eraseKey (hs : List (String × String)) (k : String) :
    List (String × String) :=
  match hs with
  | [] => []
  | p :: t => if ikey p.1 k then eraseKey t k else p :: eraseKey t k

/-- `add_header`: appends a key/value pair (external HTTP message model). -/
def add_header (hs : List (String × String)) (k v : String) :
    List (String × String) :=
  hs ++ [(k, v)]

/-- `replace_header`: drop existing pairs with the key, then append the new
pair (external HTTP message model). -/
def replace_header (hs : List (String × String)) (k v : String) :
    List (String × String) :=
  eraseKey hs k ++ [(k, v)]

/-- `remove_header` (external HTTP message model). -/
def remove_header (hs : List (String × String)) (k : String) :
    List (String × String) :=
  eraseKey hs k

/-- Modelled from the spec: a parsed HTTP request exposes case-insensitive
header lookup and the parsed request target (`m_request.header(key)`,
`m_request.uri()`). -/
structure HttpRequest where
  headers : List (String × String) := []
  uri : String := ""
  deriving Repr, DecidableEq

def HttpRequest.header (r : HttpRequest) (k : String) : String :=
  getHeader r.headers k

/-- Modelled from the spec: an HTTP response value with status line,
headers and body (`http::parser::response`). -/
structure HttpResponse where
  statusCode : Nat := 200
  statusMsg : String := ""
  headers : List (String × String) := []
  body : String := ""
  httpVersion : String := ""
  deriving Repr, DecidableEq

/-- Default reason phrase for the status codes this role uses
(one-argument `set_status`). -/
def defaultReason (code : Nat) : String :=
  if code == 101 then "Switching Protocols"
  else if code == 200 then "OK"
  else if code == 400 then "Bad Request"
  else ""

def setStatus1 (r : HttpResponse) (code : Nat) : HttpResponse :=
  { r with statusCode := code, statusMsg := defaultReason code }

def setStatus2 (r : HttpResponse) (code : Nat) (msg : String) : HttpResponse :=
  { r with statusCode := code, statusMsg := msg }

def setBody (r : HttpResponse) (b : String) : HttpResponse :=
  { r with body := b }

/-- `http::exception` payload: the log message passed to the constructor,
and the status code/message/body the catch block copies into the response. -/
structure HttpExc where
  logMsg : String := ""
  m_error_code : Nat := 400
  m_error_msg : String := ""
  m_body : String := ""
  deriving Repr, DecidableEq

/-- The two-argument `http::exception(log_msg, code)` constructor used in
`server.hpp`: error message and body default to empty. -/
def httpException (logMsg : String) (code : Nat) : HttpExc :=
  { logMsg := logMsg, m_error_code := code }

/-! ### URI value (external collaborator, interface boundary) -/

/-- Modelled from the spec: the `uri` value object
`{secure : bool, host : string, port : 16-bit unsigned, resource : string}`. -/
structure Uri where
  secure : Bool
  host : String
  port : Nat
  resource : String
  deriving Repr, DecidableEq

/-- Modelled from the spec: the default port assumed when the `Host` header
carries none — the connection's own port, identical for WS and HTTP. -/
def uriDefaultPort (secure : Bool) : Nat :=
  if secure then 443 else 80

/-- Modelled from the spec: decimal parse of an explicit port string; an
unparsable or out-of-range port raises `uri_exception`. -/
def parsePort (s : String) : Option Nat :=
  if s.data ≠ [] ∧ s.data.all Char.isDigit then
    let n := s.data.foldl (fun acc c => acc * 10 + (c.toNat - 48)) 0
    if n < 65536 then some n else none
  else none

/-- The three-argument `uri` constructor (no explicit port): take the
connection's default port for its security level. -/
def mkUri3 (secure : Bool) (host resource : String) : Uri :=
  { secure := secure, host := host, port := uriDefaultPort secure,
    resource := resource }

/-- The four-argument `uri` constructor (explicit port string); a bad port
string raises `uri_exception`, modelled as `Except`. -/
def mkUri4 (secure : Bool) (host portStr resource : String) :
    Except Unit Uri :=
  match parsePort portStr with
  | none => .error ()
  | some p =>
    .ok { secure := secure, host := host, port := p, resource := resource }

/-! ### Connection state -/

/-- `session::state` of the owning connection. -/
inductive SessionState where
  | CONNECTING
  | OPEN
  | CLOSED
  deriving Repr, DecidableEq

/-- The per-connection handshake state of `role::server::connection`
(fields `m_version` … `m_response` of `server.hpp`, lines 336-350, plus
the owning connection's `m_state` and the presence of `m_processor`). -/
structure Connection where
  m_version : Int := -1
  m_uri : Option Uri := none
  m_origin : String := ""
  m_requested_subprotocols : List String := []
  m_requested_extensions : List String := []
  m_subprotocol : String := ""
  m_extensions : List String := []
  m_request : HttpRequest := {}
  m_response : HttpResponse := {}
  m_state : SessionState := .CONNECTING
  m_processorSet : Bool := false
  deriving Repr, DecidableEq

/-- A freshly constructed connection: `m_version(-1)`, null `m_uri`
(constructor at lines 143-147 of `server.hpp`). -/
def freshConnection : Connection := {}

/-! ### Subprotocol / extension negotiation (lines 101-130) -/

/-- `connection::select_subprotocol`: a non-empty value not offered by the
client throws `std::invalid_argument` (the connection is unchanged);
otherwise `m_subprotocol := value`. -/
def select_subprotocol (c : Connection) (value : String) :
    Except String Connection :=
  if value != "" && !(c.m_requested_subprotocols.contains value) then
    .error "Attempted to choose a subprotocol not proposed by the client"
  else
    .ok { c with m_subprotocol := value }

/-- `connection::select_extension`: empty value returns immediately; a
value not offered by the client throws `std::invalid_argument` (the
connection is unchanged); otherwise the value is appended to
`m_extensions`. -/
def select_extension (c : Connection) (value : String) :
    Except String Connection :=
  if value == "" then
    .ok c
  else if !(c.m_requested_extensions.contains value) then
    .error "Attempted to choose an extension not proposed by the client"
  else
    .ok { c with m_extensions := c.m_extensions ++ [value] }

/-! ### The handshake state machine (`handle_read_request`, lines 164-255) -/

/-- Which application/processor hooks a run of `handle_read_request`
invoked (used to check ordering claims). -/
structure Flags where
  httpInvoked : Bool := false
  validateInvoked : Bool := false
  validateHandshakeInvoked : Bool := false
  deriving Repr, DecidableEq

/-- Outcome of `handle_read_request`: a transport error aborts the
connection (`terminate(false)`) without writing; otherwise the connection
state reached at the `write_response()` call at line 254. -/
inductive ReadResult where
  | terminated
  | wrote (c : Connection) (flags : Flags)
  deriving Repr, DecidableEq

/-- Exceptions caught at lines 244-252: `http::exception` (status/message
/body copied into the response) and `uri_exception` (response degraded to
400). -/
inductive Caught where
  | httpExc (e : HttpExc)
  | uriExc
  deriving Repr, DecidableEq

/-- Modelled from the spec: an application hook receives the connection and
may mutate exactly the fields reachable through the connection's public
interface during CONNECTING — the response (headers/body), the selected
subprotocol and the accepted extensions — or reject by raising. -/
structure HookEffect where
  subprotocol : String
  extensions : List String
  response : HttpResponse
  deriving Repr, DecidableEq

/-- Apply a hook's mutations to the connection. -/
def applyHook (c : Connection) (eff : HookEffect) : Connection :=
  { c with m_subprotocol := eff.subprotocol,
           m_extensions := eff.extensions,
           m_response := eff.response }

/-- The identity hook effect: the hook returns without mutating. -/
def idEffect (c : Connection) : HookEffect :=
  { subprotocol := c.m_subprotocol, extensions := c.m_extensions,
    response := c.m_response }

/-- Modelled from the spec: the external collaborators of one connection —
the endpoint's security flag, the version-specific processor
(`validate_handshake`, `get_origin`, `get_uri`) and the application handler
hooks (`validate`, `http`). Hook rejection raises; processor handshake
validation raises `http::exception`; `get_uri` may raise `uri_exception`. -/
structure Externals where
  is_secure : Bool
  validate_handshake : HttpRequest → Except HttpExc Unit
  get_origin : HttpRequest → String
  get_uri : HttpRequest → Except Unit Uri
  handler_validate : Connection → Except HttpExc HookEffect
  handler_http : Connection → Except HttpExc HookEffect

/-- WebSocket path after a processor was instantiated (lines 213-219):
processor handshake validation, origin/uri extraction, the application
`validate` hook, then status 101. A throw leaves earlier mutations in
place. -/
def wsValidate (ext : Externals) (req : HttpRequest) (c : Connection) :
    Connection × Flags × Option Caught :=
  let flags : Flags := { validateHandshakeInvoked := true }
  match ext.validate_handshake req with
  | .error e => (c, flags, some (.httpExc e))
  | .ok _ =>
    let c := { c with m_origin := ext.get_origin req }
    match ext.get_uri req with
    | .error _ => (c, flags, some .uriExc)
    | .ok u =>
      let c := { c with m_uri := some u }
      let flags := { flags with validateInvoked := true }
      match ext.handler_validate c with
      | .error e => (c, flags, some (.httpExc e))
      | .ok eff =>
        let c := applyHook c eff
        ({ c with m_response := setStatus1 c.m_response 101 }, flags, none)

/-- Plain-HTTP path (lines 220-243): `Handler.http` hook, origin from the
`Origin` header, uri from the `Host` header (split at the first colon when
present, default port otherwise), then status 200. -/
def httpPath (ext : Externals) (req : HttpRequest) (c : Connection) :
    Connection × Flags × Option Caught :=
  let flags : Flags := { httpInvoked := true }
  match ext.handler_http c with
  | .error e => (c, flags, some (.httpExc e))
  | .ok eff =>
    let c := applyHook c eff
    let c := { c with m_origin := req.header "Origin" }
    let h := req.header "Host"
    match findColon h with
    | none =>
      let c := { c with m_uri := some (mkUri3 ext.is_secure h req.uri) }
      ({ c with m_response := setStatus1 c.m_response 200 }, flags, none)
    | some found =>
      match mkUri4 ext.is_secure (strTake h found)
          (strDropFrom h (found + 1)) req.uri with
      | .error _ => (c, flags, some .uriExc)
      | .ok u =>
        let c := { c with m_uri := some u }
        ({ c with m_response := setStatus1 c.m_response 200 }, flags, none)

/-- The `try` block of `handle_read_request` (lines 174-243). `parsed` is
the external parser's verdict: `none` when `parse_complete` returns false.
Returns the connection (with any mutations made before a throw), the hook
flags, and the exception in flight if one was raised. -/
def readRequestTry (ext : Externals) (parsed : Option HttpRequest)
    (c0 : Connection) : Connection × Flags × Option Caught :=
  match parsed with
  | none =>
    (c0, {}, some (.httpExc
      (httpException "Recieved invalid HTTP Request" 400)))
  | some req =>
    let c := { c0 with m_request := req }
    if ifind_first (req.header "Upgrade") "websocket" then
      let h := req.header "Sec-WebSocket-Version"
      if h == "" then
        -- version absent: m_version := 0, then the `m_version == 0`
        -- branch at lines 199-202 advertises and throws
        let c := { c with m_version := 0 }
        let hs := add_header c.m_response.headers "Sec-WebSocket-Version"
          "13, 8, 7"
        let c := { c with m_response := { c.m_response with headers := hs } }
        (c, {}, some (.httpExc
          (httpException "Unsupported WebSocket version" 400)))
      else
        let v := atoi h
        let c := { c with m_version := v }
        if v == 0 then
          -- atoi produced 0: throw at line 194, before any advertisement
          (c, {}, some (.httpExc
            (httpException "Unable to determine connection version" 400)))
        else if v == 7 || v == 8 || v == 13 then
          let c := { c with m_processorSet := true }
          wsValidate ext req c
        else
          let hs := add_header c.m_response.headers "Sec-WebSocket-Version"
            "13, 8, 7"
          let c := { c with m_response := { c.m_response with headers := hs } }
          (c, {}, some (.httpExc
            (httpException "Unsupported WebSocket version" 400)))
    else
      httpPath ext req c

/-- `connection::handle_read_request`: a transport error terminates
without a response; otherwise the `try` body runs, any caught exception is
folded into the response (status/message/body for `http::exception`, bare
400 for `uri_exception`), and control reaches `write_response()`. -/
def handle_read_request (ext : Externals) (error : Bool)
    (parsed : Option HttpRequest) (c0 : Connection) : ReadResult :=
  if error then
    .terminated
  else
    match readRequestTry ext parsed c0 with
    | (c, flags, none) => .wrote c flags
    | (c, flags, some (.httpExc e)) =>
      let resp := setBody (setStatus2 c.m_response e.m_error_code
        e.m_error_msg) e.m_body
      .wrote { c with m_response := resp } flags
    | (c, flags, some .uriExc) =>
      .wrote { c with m_response := setStatus1 c.m_response 400 } flags

/-- Connection reached by a `ReadResult`, with a fallback for the
terminated case. -/
def readConn (r : ReadResult) (d : Connection) : Connection :=
  match r with
  | .wrote c _ => c
  | .terminated => d

/-- Hook flags of a `ReadResult` (all false when terminated). -/
def readFlags (r : ReadResult) : Flags :=
  match r with
  | .wrote _ f => f
  | .terminated => {}

/-! ### Response assembly and post-write disposition (lines 257-334) -/

/-- `connection::write_response` (lines 257-288). `procHeaders` stands for
the headers the external processor's `handshake_response` adds on the 101
path — modelled from the spec: version-specific handshake headers such as
the accept key, appended to the response. After that, a selected
subprotocol is placed in `Sec-WebSocket-Protocol`; negotiated extensions
are never emitted; finally the `Server` header is set. -/
def write_response (procHeaders : List (String × String)) (c : Connection) :
    Connection :=
  let resp := { c.m_response with httpVersion := "HTTP/1.1" }
  let resp :=
    if resp.statusCode == 101 then
      let resp := { resp with headers := resp.headers ++ procHeaders }
      if c.m_subprotocol != "" then
        let hs := replace_header resp.headers "Sec-WebSocket-Protocol"
          c.m_subprotocol
        { resp with headers := hs }
      else resp
    else resp
  let hs := replace_header resp.headers "Server" "WebSocket++/2011-11-18"
  let resp := { resp with headers := hs }
  { c with m_response := resp }

/-- `connection::log_open_result` (lines 324-334): builds the CONNECT log
line. It dereferences `m_uri` unconditionally (`m_uri->get_resource()`);
on a null handle the dereference is undefined behaviour, modelled as
`none`. -/
def log_open_result (c : Connection) : Option String :=
  match c.m_uri with
  | none => none
  | some u =>
    some ((if c.m_version == -1 then "HTTP" else "WebSocket")
      ++ " Connection "
      ++ (if c.m_version == -1 then "" else "v" ++ toString c.m_version ++ " ")
      ++ (if c.m_request.header "User-Agent" == "" then "NULL"
          else c.m_request.header "User-Agent")
      ++ " " ++ u.resource ++ " " ++ toString c.m_response.statusCode)

/-- Outcome of `handle_write_response`: transport error → abort
(`terminate(false)`); null `m_uri` reached inside `log_open_result` →
undefined behaviour; status ≠ 101 → graceful close (`terminate(true)`)
with the connection unchanged; status 101 → state OPEN, `on_open` invoked
once, then the frame read loop. -/
inductive WriteOutcome where
  | aborted
  | nullDeref
  | closedGracefully (c : Connection)
  | opened (c : Connection)
  deriving Repr, DecidableEq

/-- Number of `Handler.on_open` invocations an outcome performs. -/
def onOpenCount : WriteOutcome → Nat
  | .opened _ => 1
  | _ => 0

/-- `connection::handle_write_response` (lines 290-322). -/
def handle_write_response (error : Bool) (c : Connection) : WriteOutcome :=
  if error then
    .aborted
  else
    match log_open_result c with
    | none => .nullDeref
    | some _ =>
      if c.m_response.statusCode != 101 then
        .closedGracefully c
      else
        .opened { c with m_state := .OPEN }

/-! ### Concrete fixtures used by counterexamples and witnesses -/

/-- A concrete set of external collaborators: permissive processor and
no-op handler hooks. -/
def ext0 : Externals :=
  { is_secure := false,
    validate_handshake := fun _ => .ok (),
    get_origin := fun r => r.header "Origin",
    get_uri := fun r => .ok (mkUri3 false (r.header "Host") r.uri),
    handler_validate := fun c => .ok (idEffect c),
    handler_http := fun c => .ok (idEffect c) }

/-- A well-formed version-13 upgrade request. -/
def req13 : HttpRequest :=
  { headers := [("Upgrade", "websocket"), ("Sec-WebSocket-Version", "13"),
                ("Host", "example.com")],
    uri := "/" }

/-- An upgrade request with a non-numeric version token. -/
def reqAbc : HttpRequest :=
  { headers := [("Upgrade", "websocket"), ("Sec-WebSocket-Version", "abc")],
    uri := "/" }

/-- An upgrade request with a numeric but unsupported version. -/
def req99 : HttpRequest :=
  { headers := [("Upgrade", "websocket"), ("Sec-WebSocket-Version", "99")],
    uri := "/" }

/-- An upgrade request with no version header at all. -/
def reqNoVer : HttpRequest :=
  { headers := [("Upgrade", "websocket")], uri := "/" }

/-- A plain-HTTP request whose Host header carries an explicit port. -/
def reqHostPort : HttpRequest :=
  { headers := [("Host", "example.com:9000")], uri := "/chat" }

/-- A plain-HTTP request whose Host header carries no port. -/
def reqHostBare : HttpRequest :=
  { headers := [("Host", "example.com")], uri := "/chat" }

/-- A CONNECTING connection whose client offered subprotocol "bar". -/
def connBar : Connection :=
  { freshConnection with m_requested_subprotocols := ["bar"] }

/-- A CONNECTING connection whose client offered extension "deflate". -/
def connDeflate : Connection :=
  { freshConnection with m_requested_extensions := ["deflate"] }

/-! ### Header-list lemmas -/

theorem ikey_self (k : String) : ikey k k = true := by
  simp [ikey]

theorem ikey_trans {a k q : String} (h1 : ikey a k = true)
    (h2 : ikey a q = true) : ikey k q = true := by
  simp only [ikey, beq_iff_eq] at h1 h2 ⊢
  rw [← h1, h2]

theorem ikey_false_of {p k q : String} (hq : ikey p q = true)
    (hkq : ikey k q = false) : ikey p k = false := by
  cases h2 : ikey p k
  · rfl
  · exact absurd hkq (by simp [ikey_trans h2 hq])

theorem getHeader_replace_other {k q : String} (hkq : ikey k q = false)
    (hqk : ikey q k = false) (v : String) (hs : List (String × String)) :
    getHeader (replace_header hs q v) k = getHeader hs k := by
  induction hs with
  | nil => simp [replace_header, eraseKey, getHeader, hqk]
  | cons p t ih =>
    by_cases hq : ikey p.1 q = true
    · have hk : ikey p.1 k = false := ikey_false_of hq hkq
      simpa [replace_header, eraseKey, getHeader, hq, hk] using ih
    · have hq' : ikey p.1 q = false := by simpa using hq
      cases hk : ikey p.1 k
      · simpa [replace_header, eraseKey, getHeader, hq', hk] using ih
      · simp [replace_header, eraseKey, getHeader, hq', hk]

theorem hasHeader_replace_other {k q : String} (hkq : ikey k q = false)
    (hqk : ikey q k = false) (v : String) (hs : List (String × String)) :
    hasHeader (replace_header hs q v) k = hasHeader hs k := by
  induction hs with
  | nil => simp [replace_header, eraseKey, hasHeader, hqk]
  | cons p t ih =>
    by_cases hq : ikey p.1 q = true
    · have hk : ikey p.1 k = false := ikey_false_of hq hkq
      simpa [replace_header, eraseKey, hasHeader, hq, hk] using ih
    · have hq' : ikey p.1 q = false := by simpa using hq
      cases hk : ikey p.1 k
      · simpa [replace_header, eraseKey, hasHeader, hq', hk] using ih
      · simp [replace_header, eraseKey, hasHeader, hq', hk]

theorem hasHeader_replace_self (hs : List (String × String)) (k v : String) :
    hasHeader (replace_header hs k v) k = true := by
  induction hs with
  | nil => simp [replace_header, eraseKey, hasHeader, ikey_self]
  | cons p t ih =>
    by_cases hq : ikey p.1 k = true
    · simpa [replace_header, eraseKey, hasHeader, hq] using ih
    · have hq' : ikey p.1 k = false := by simpa using hq
      simpa [replace_header, eraseKey, hasHeader, hq'] using ih

theorem getHeader_replace_self (hs : List (String × String)) (k v : String) :
    getHeader (replace_header hs k v) k = v := by
  induction hs with
  | nil => simp [replace_header, eraseKey, getHeader, ikey_self]
  | cons p t ih =>
    by_cases hq : ikey p.1 k = true
    · simpa [replace_header, eraseKey, getHeader, hq] using ih
    · have hq' : ikey p.1 k = false := by simpa using hq
      simpa [replace_header, eraseKey, getHeader, hq'] using ih

theorem getHeader_append_self {hs : List (String × String)} {k : String}
    (h : hasHeader hs k = false) (v : String) :
    getHeader (hs ++ [(k, v)]) k = v := by
  induction hs with
  | nil => simp [getHeader, ikey_self]
  | cons p t ih =>
    simp only [hasHeader, Bool.or_eq_false_iff] at h
    simpa [getHeader, h.1] using ih h.2

theorem hasHeader_append (a b : List (String × String)) (k : String) :
    hasHeader (a ++ b) k = (hasHeader a k || hasHeader b k) := by
  induction a with
  | nil => simp [hasHeader]
  | cons p t ih => simp [hasHeader, ih, Bool.or_assoc]

/-! ### Theorems -/

/-- C3: `select_subprotocol("")` always succeeds and clears the selection;
a non-empty value succeeds and sets `m_subprotocol` exactly when it occurs
in `m_requested_subprotocols`, and otherwise fails with the
invalid-argument error, leaving the connection unchanged (the error result
carries no mutated state). -/
theorem select_subprotocol_spec (c : Connection) (v : String)
    (hv : v ≠ "") :
    select_subprotocol c "" = .ok { c with m_subprotocol := "" }
    ∧ (c.m_requested_subprotocols.contains v = true →
        select_subprotocol c v = .ok { c with m_subprotocol := v })
    ∧ (c.m_requested_subprotocols.contains v = false →
        select_subprotocol c v = .error
          "Attempted to choose a subprotocol not proposed by the client") := by
  refine ⟨?_, ?_, ?_⟩
  · simp [select_subprotocol]
  · intro hmem
    have h1 : v ∈ c.m_requested_subprotocols := by simpa using hmem
    simp [select_subprotocol, h1]
  · intro hmem
    have h1 : v ∉ c.m_requested_subprotocols := by simpa using hmem
    simp [select_subprotocol, h1, hv]

/-- C3 witness: with `requested_subprotocols = ["bar"]`, selecting `"foo"`
fails with the invalid-argument error and selecting `""` clears. -/
theorem select_subprotocol_spec_witness :
    select_subprotocol connBar "" = .ok { connBar with m_subprotocol := "" }
    ∧ (connBar.m_requested_subprotocols.contains "foo" = true →
        select_subprotocol connBar "foo"
          = .ok { connBar with m_subprotocol := "foo" })
    ∧ (connBar.m_requested_subprotocols.contains "foo" = false →
        select_subprotocol connBar "foo"
          = .error
            "Attempted to choose a subprotocol not proposed by the client") :=
  select_subprotocol_spec connBar "foo" (by decide)

/-- C4: `select_extension("")` is a silent no-op; a non-empty value absent
from `m_requested_extensions` fails with the invalid-argument error and no
state change; a present value is appended to `m_extensions`, and two
successful calls accumulate both values in order with no deduplication. -/
theorem select_extension_spec (c : Connection) (v w : String)
    (hv : v ≠ "") (hw : w ≠ "") :
    select_extension c "" = .ok c
    ∧ (c.m_requested_extensions.contains v = false →
        select_extension c v = .error
          "Attempted to choose an extension not proposed by the client")
    ∧ (c.m_requested_extensions.contains v = true →
        select_extension c v =
          .ok { c with m_extensions := c.m_extensions ++ [v] })
    ∧ (c.m_requested_extensions.contains v = true →
        c.m_requested_extensions.contains w = true →
        (select_extension c v).bind (fun c1 => select_extension c1 w) =
          .ok { c with m_extensions := c.m_extensions ++ [v, w] }) := by
  refine ⟨?_, ?_, ?_, ?_⟩
  · simp [select_extension]
  · intro hmem
    have h1 : v ∉ c.m_requested_extensions := by simpa using hmem
    simp [select_extension, h1, hv]
  · intro hmem
    have h1 : v ∈ c.m_requested_extensions := by simpa using hmem
    simp [select_extension, h1, hv]
  · intro hmv hmw
    have h1 : v ∈ c.m_requested_extensions := by simpa using hmv
    have h2 : w ∈ c.m_requested_extensions := by simpa using hmw
    simp [select_extension, h1, h2, hv, hw, Except.bind, List.append_assoc]

/-- C4 witness: with `requested_extensions = ["deflate"]`, selecting
`"deflate"` twice accumulates two entries and the empty string is a
no-op. -/
theorem select_extension_spec_witness :
    select_extension connDeflate "" = .ok connDeflate
    ∧ (connDeflate.m_requested_extensions.contains "deflate" = false →
        select_extension connDeflate "deflate"
          = .error
            "Attempted to choose an extension not proposed by the client")
    ∧ (connDeflate.m_requested_extensions.contains "deflate" = true →
        select_extension connDeflate "deflate"
          = .ok { connDeflate with m_extensions := [] ++ ["deflate"] })
    ∧ (connDeflate.m_requested_extensions.contains "deflate" = true →
        connDeflate.m_requested_extensions.contains "deflate" = true →
        (select_extension connDeflate "deflate").bind
            (fun c1 => select_extension c1 "deflate") =
          .ok { connDeflate with
                m_extensions := [] ++ ["deflate", "deflate"] }) :=
  select_extension_spec connDeflate "deflate" "deflate" (by decide)
    (by decide)

/-- C6: when the HTTP parser rejects the buffered input
(`parse_complete` false), `handle_read_request` reaches `write_response`
with a 400 response, and neither `Handler.validate` nor `Handler.http`
(nor the processor's handshake validation) is ever invoked. -/
theorem parse_failure_spec (ext : Externals) (c : Connection) :
    handle_read_request ext false none c =
      .wrote (readConn (handle_read_request ext false none c) c)
        (readFlags (handle_read_request ext false none c))
    ∧ (readConn (handle_read_request ext false none c) c).m_response.statusCode
        = 400
    ∧ (readFlags (handle_read_request ext false none c)).validateInvoked
        = false
    ∧ (readFlags (handle_read_request ext false none c)).httpInvoked = false
    ∧ Flags.validateHandshakeInvoked
        (readFlags (handle_read_request ext false none c)) = false := by
  simp [handle_read_request, readRequestTry, readConn, readFlags,
    httpException, setStatus2, setBody]

/-- C10: the null-`m_uri` dereference inside `log_open_result` is
reachable from the public interface: a freshly accepted connection whose
request fails to parse reaches `write_response` with `m_uri` still null
and a 400 status, and the subsequent error-free `handle_write_response`
hits the null dereference in `log_open_result` before it can terminate
the connection. -/
theorem log_open_result_null_uri_reachable :
    (readConn (handle_read_request ext0 false none freshConnection)
        freshConnection).m_uri = none
    ∧ (readConn (handle_read_request ext0 false none freshConnection)
        freshConnection).m_response.statusCode = 400
    ∧ log_open_result
        (write_response []
          (readConn (handle_read_request ext0 false none freshConnection)
            freshConnection)) = none
    ∧ handle_write_response false
        (write_response []
          (readConn (handle_read_request ext0 false none freshConnection)
            freshConnection)) = .nullDeref := by
  refine ⟨rfl, rfl, rfl, rfl⟩

/-- The connection state written for the unsupported-version-99 request. -/
def c99 : Connection :=
  readConn (handle_read_request ext0 false (some req99) freshConnection)
    freshConnection

/-- The hook flags for the unsupported-version-99 request. -/
def f99 : Flags :=
  readFlags (handle_read_request ext0 false (some req99) freshConnection)

/-- C1 counterexample: for the upgrade request with the non-numeric
version "abc" (which `atoi` parses to 0), `handle_read_request` produces
a 400 response that does NOT carry the `Sec-WebSocket-Version: 13, 8, 7`
advertisement header — the throw at line 194 of `server.hpp` fires before
the advertisement is added. -/
theorem version_advert_counterexample :
    ifind_first (reqAbc.header "Upgrade") "websocket" = true
    ∧ atoi (reqAbc.header "Sec-WebSocket-Version") = 0
    ∧ handle_read_request ext0 false (some reqAbc) freshConnection =
        .wrote (readConn (handle_read_request ext0 false (some reqAbc)
            freshConnection) freshConnection)
          (readFlags (handle_read_request ext0 false (some reqAbc)
            freshConnection))
    ∧ (readConn (handle_read_request ext0 false (some reqAbc)
        freshConnection) freshConnection).m_response.statusCode = 400
    ∧ hasHeader (readConn (handle_read_request ext0 false (some reqAbc)
        freshConnection) freshConnection).m_response.headers
        "Sec-WebSocket-Version" = false := by
  refine ⟨rfl, rfl, rfl, rfl, rfl⟩

/-- C1 (amended): for a parsed upgrade request whose Upgrade header
contains "websocket", with no pre-existing `Sec-WebSocket-Version`
response header: an absent version header, or a present version whose
`atoi` value is outside {0, 7, 8, 13}, yields a 400 response carrying
`Sec-WebSocket-Version: 13, 8, 7`; but a present version whose `atoi`
value is 0 (in particular every non-numeric version) yields a 400
response WITHOUT that header. -/
theorem version_reject_spec (ext : Externals) (req : HttpRequest)
    (c c2 : Connection) (f : Flags)
    (hadv : hasHeader c.m_response.headers "Sec-WebSocket-Version" = false)
    (hup : ifind_first (req.header "Upgrade") "websocket" = true)
    (hw : handle_read_request ext false (some req) c = .wrote c2 f) :
    (req.header "Sec-WebSocket-Version" = "" →
      c2.m_response.statusCode = 400
      ∧ getHeader c2.m_response.headers "Sec-WebSocket-Version"
          = "13, 8, 7")
    ∧ (req.header "Sec-WebSocket-Version" ≠ "" →
        atoi (req.header "Sec-WebSocket-Version") = 0 →
        c2.m_response.statusCode = 400
        ∧ hasHeader c2.m_response.headers "Sec-WebSocket-Version" = false)
    ∧ (req.header "Sec-WebSocket-Version" ≠ "" →
        atoi (req.header "Sec-WebSocket-Version") ≠ 0 →
        atoi (req.header "Sec-WebSocket-Version") ≠ 7 →
        atoi (req.header "Sec-WebSocket-Version") ≠ 8 →
        atoi (req.header "Sec-WebSocket-Version") ≠ 13 →
        c2.m_response.statusCode = 400
        ∧ getHeader c2.m_response.headers "Sec-WebSocket-Version"
            = "13, 8, 7") := by
  refine ⟨?_, ?_, ?_⟩
  · intro hv
    simp only [handle_read_request, readRequestTry, hup, hv, if_true,
      Bool.if_true_left] at hw
    simp [httpException, setStatus2, setBody, ReadResult.wrote.injEq] at hw
    obtain ⟨hc, _⟩ := hw
    subst hc
    refine ⟨rfl, ?_⟩
    simpa [add_header] using getHeader_append_self hadv "13, 8, 7"
  · intro hv h0
    have hb : (req.header "Sec-WebSocket-Version" == "") = false := by
      simpa using hv
    have hb0 : (atoi (req.header "Sec-WebSocket-Version") == 0) = true := by
      simpa using h0
    simp only [handle_read_request, readRequestTry, hup, hb, hb0] at hw
    simp [httpException, setStatus2, setBody, ReadResult.wrote.injEq] at hw
    obtain ⟨hc, _⟩ := hw
    subst hc
    exact ⟨rfl, hadv⟩
  · intro hv h0 h7 h8 h13
    have hb : (req.header "Sec-WebSocket-Version" == "") = false := by
      simpa using hv
    have hb0 : (atoi (req.header "Sec-WebSocket-Version") == 0) = false := by
      simpa using h0
    have hb7 : (atoi (req.header "Sec-WebSocket-Version") == 7) = false := by
      simpa using h7
    have hb8 : (atoi (req.header "Sec-WebSocket-Version") == 8) = false := by
      simpa using h8
    have hb13 : (atoi (req.header "Sec-WebSocket-Version") == 13) = false := by
      simpa using h13
    simp only [handle_read_request, readRequestTry, hup, hb, hb0, hb7, hb8,
      hb13] at hw
    simp [httpException, setStatus2, setBody, ReadResult.wrote.injEq] at hw
    obtain ⟨hc, _⟩ := hw
    subst hc
    refine ⟨rfl, ?_⟩
    simpa [add_header] using getHeader_append_self hadv "13, 8, 7"

/-- C1 witness: the amended theorem applied to the version-99 request. -/
theorem version_reject_spec_witness :
    (req99.header "Sec-WebSocket-Version" = "" →
      c99.m_response.statusCode = 400
      ∧ getHeader c99.m_response.headers "Sec-WebSocket-Version"
          = "13, 8, 7")
    ∧ (req99.header "Sec-WebSocket-Version" ≠ "" →
        atoi (req99.header "Sec-WebSocket-Version") = 0 →
        c99.m_response.statusCode = 400
        ∧ hasHeader c99.m_response.headers "Sec-WebSocket-Version" = false)
    ∧ (req99.header "Sec-WebSocket-Version" ≠ "" →
        atoi (req99.header "Sec-WebSocket-Version") ≠ 0 →
        atoi (req99.header "Sec-WebSocket-Version") ≠ 7 →
        atoi (req99.header "Sec-WebSocket-Version") ≠ 8 →
        atoi (req99.header "Sec-WebSocket-Version") ≠ 13 →
        c99.m_response.statusCode = 400
        ∧ getHeader c99.m_response.headers "Sec-WebSocket-Version"
            = "13, 8, 7") :=
  version_reject_spec ext0 req99 freshConnection c99 f99 rfl rfl rfl

/-! ### Path lemmas for the state machine -/

/-- The version-negotiation condition `handle_read_request` implements:
a parsed request, Upgrade containing "websocket", and an explicit
`Sec-WebSocket-Version` whose `atoi` value is 7, 8 or 13. -/
def supportedUpgradeVersion (parsed : Option HttpRequest) : Bool :=
  match parsed with
  | none => false
  | some req =>
    ifind_first (req.header "Upgrade") "websocket" &&
    (req.header "Sec-WebSocket-Version" != "" &&
      (atoi (req.header "Sec-WebSocket-Version") == 7 ||
       atoi (req.header "Sec-WebSocket-Version") == 8 ||
       atoi (req.header "Sec-WebSocket-Version") == 13))

theorem wsValidate_fst_processorSet (ext : Externals) (req : HttpRequest)
    (c : Connection) :
    (wsValidate ext req c).1.m_processorSet = c.m_processorSet := by
  unfold wsValidate
  split
  · simp
  · try dsimp only
    split
    · simp
    · try dsimp only
      split <;> simp [applyHook]

theorem wsValidate_flags_vh (ext : Externals) (req : HttpRequest)
    (c : Connection) :
    (wsValidate ext req c).2.1.validateHandshakeInvoked = true := by
  unfold wsValidate
  split
  · simp
  · try dsimp only
    split
    · simp
    · try dsimp only
      split <;> simp

theorem httpPath_fst_processorSet (ext : Externals) (req : HttpRequest)
    (c : Connection) :
    (httpPath ext req c).1.m_processorSet = c.m_processorSet := by
  unfold httpPath
  split
  · simp
  · try dsimp only
    split
    · simp [applyHook]
    · try dsimp only
      split <;> simp [applyHook]

theorem httpPath_flags_vh (ext : Externals) (req : HttpRequest)
    (c : Connection) :
    (httpPath ext req c).2.1.validateHandshakeInvoked = false := by
  unfold httpPath
  split
  · simp
  · try dsimp only
    split
    · simp
    · try dsimp only
      split <;> simp

/-- The catch/write wrapper of `handle_read_request` only rewrites the
response of the connection produced by the `try` body; every other field,
and the hook flags, pass through unchanged. -/
theorem handle_read_request_wrote (ext : Externals)
    (parsed : Option HttpRequest) (c c2 : Connection) (f : Flags)
    (hw : handle_read_request ext false parsed c = .wrote c2 f) :
    c2.m_processorSet = (readRequestTry ext parsed c).1.m_processorSet
    ∧ c2.m_subprotocol = (readRequestTry ext parsed c).1.m_subprotocol
    ∧ c2.m_extensions = (readRequestTry ext parsed c).1.m_extensions
    ∧ c2.m_state = (readRequestTry ext parsed c).1.m_state
    ∧ c2.m_uri = (readRequestTry ext parsed c).1.m_uri
    ∧ f = (readRequestTry ext parsed c).2.1 := by
  rcases hr : readRequestTry ext parsed c with ⟨cc, ff, exc⟩
  rcases exc with _ | ex
  · simp [handle_read_request, hr, ReadResult.wrote.injEq] at hw
    obtain ⟨hc, hf⟩ := hw
    subst hc
    subst hf
    simp
  · cases ex with
    | httpExc e =>
      simp [handle_read_request, hr, ReadResult.wrote.injEq] at hw
      obtain ⟨hc, hf⟩ := hw
      subst hc
      subst hf
      simp [setStatus2, setBody]
    | uriExc =>
      simp [handle_read_request, hr, ReadResult.wrote.injEq] at hw
      obtain ⟨hc, hf⟩ := hw
      subst hc
      subst hf
      simp [setStatus1]

/-- Inside the `try` body, the processor is instantiated (and handshake
validation reached) exactly on the supported-version condition. -/
theorem readRequestTry_processorSet (ext : Externals)
    (parsed : Option HttpRequest) (c : Connection)
    (h0 : c.m_processorSet = false) :
    (readRequestTry ext parsed c).1.m_processorSet
        = supportedUpgradeVersion parsed
    ∧ (readRequestTry ext parsed c).2.1.validateHandshakeInvoked
        = supportedUpgradeVersion parsed := by
  cases parsed with
  | none => simp [readRequestTry, supportedUpgradeVersion, h0]
  | some req =>
    by_cases hup : ifind_first (req.header "Upgrade") "websocket" = true
    · by_cases hv : req.header "Sec-WebSocket-Version" = ""
      · simp [readRequestTry, supportedUpgradeVersion, hup, hv, h0]
      · have hb : (req.header "Sec-WebSocket-Version" == "") = false := by
          simpa using hv
        by_cases h0v : atoi (req.header "Sec-WebSocket-Version") = 0
        · have hb0 : (atoi (req.header "Sec-WebSocket-Version") == 0)
              = true := by simpa using h0v
          simp [readRequestTry, supportedUpgradeVersion, hup, hb, hb0, h0,
            h0v]
        · have hb0 : (atoi (req.header "Sec-WebSocket-Version") == 0)
              = false := by simpa using h0v
          cases hss : (atoi (req.header "Sec-WebSocket-Version") == 7 ||
              atoi (req.header "Sec-WebSocket-Version") == 8 ||
              atoi (req.header "Sec-WebSocket-Version") == 13)
          · simp [readRequestTry, supportedUpgradeVersion, hup, hb, hb0,
              hss, h0, hv]
          · simp [readRequestTry, supportedUpgradeVersion, hup, hb, hb0,
              hss, hv, wsValidate_fst_processorSet, wsValidate_flags_vh]
    · have hb : ifind_first (req.header "Upgrade") "websocket" = false := by
        simpa using hup
      simp [readRequestTry, supportedUpgradeVersion, hb,
        httpPath_fst_processorSet, httpPath_flags_vh, h0]

/-- C2: for a connection whose processor is not yet set, a completed
`handle_read_request` leaves the processor handle non-null exactly when a
supported WebSocket version (7, 8 or 13) was negotiated, and in exactly
those runs the handshake proceeds to the processor's
`validate_handshake` (no early rejection); on the HTTP path, rejected
versions and parse failures the processor is never set. -/
theorem processor_iff_supported_version (ext : Externals) (err : Bool)
    (parsed : Option HttpRequest) (c c2 : Connection) (f : Flags)
    (h0 : c.m_processorSet = false)
    (hw : handle_read_request ext err parsed c = .wrote c2 f) :
    c2.m_processorSet = supportedUpgradeVersion parsed
    ∧ f.validateHandshakeInvoked = supportedUpgradeVersion parsed := by
  cases err with
  | true => simp [handle_read_request] at hw
  | false =>
    obtain ⟨hA, _, _, _, _, hE⟩ :=
      handle_read_request_wrote ext parsed c c2 f hw
    obtain ⟨h1, h2⟩ := readRequestTry_processorSet ext parsed c h0
    exact ⟨hA.trans h1, by rw [hE]; exact h2⟩

/-- The connection state written for the well-formed version-13 request. -/
def c13 : Connection :=
  readConn (handle_read_request ext0 false (some req13) freshConnection)
    freshConnection

/-- The hook flags for the well-formed version-13 request. -/
def f13 : Flags :=
  readFlags (handle_read_request ext0 false (some req13) freshConnection)

/-- C2 witness: the version-13 request instantiates the processor and
reaches handshake validation. -/
theorem processor_iff_supported_version_witness :
    c13.m_processorSet = supportedUpgradeVersion (some req13)
    ∧ f13.validateHandshakeInvoked = supportedUpgradeVersion (some req13) :=
  processor_iff_supported_version ext0 false (some req13) freshConnection
    c13 f13 rfl rfl

/-- With no transport error, `handle_read_request` always reaches
`write_response` (it never terminates the connection). -/
theorem handle_read_request_isWrote (ext : Externals)
    (parsed : Option HttpRequest) (c : Connection) :
    handle_read_request ext false parsed c =
      .wrote (readConn (handle_read_request ext false parsed c) c)
        (readFlags (handle_read_request ext false parsed c)) := by
  simp only [handle_read_request, Bool.false_eq_true, if_false]
  rcases hr : readRequestTry ext parsed c with ⟨cc, ff, exc⟩
  rcases exc with _ | ex
  · simp [readConn, readFlags]
  · cases ex <;> simp [readConn, readFlags]

/-- C5: on the plain-HTTP path (Upgrade header without "websocket", hook
returning normally), the uri is built from the `Host` header: with no
colon, host is the whole header and the port is the connection's default;
with a colon at index `i` and a parsable port, host is the part before
the colon and the port its decimal value; in both cases the resource is
the parsed request target. -/
theorem http_host_uri_spec (ext : Externals) (req : HttpRequest)
    (c : Connection) (eff : HookEffect)
    (hup : ifind_first (req.header "Upgrade") "websocket" = false)
    (hhook : ext.handler_http { c with m_request := req } = .ok eff) :
    (findColon (req.header "Host") = none →
      (readConn (handle_read_request ext false (some req) c) c).m_uri =
        some { secure := ext.is_secure, host := req.header "Host",
               port := uriDefaultPort ext.is_secure, resource := req.uri })
    ∧ (∀ i p, findColon (req.header "Host") = some i →
        parsePort (strDropFrom (req.header "Host") (i + 1)) = some p →
        (readConn (handle_read_request ext false (some req) c) c).m_uri =
          some { secure := ext.is_secure,
                 host := strTake (req.header "Host") i,
                 port := p, resource := req.uri }) := by
  obtain ⟨_, _, _, _, huri, _⟩ :=
    handle_read_request_wrote ext (some req) c
      (readConn (handle_read_request ext false (some req) c) c)
      (readFlags (handle_read_request ext false (some req) c))
      (handle_read_request_isWrote ext (some req) c)
  constructor
  · intro hcol
    rw [huri]
    simp [readRequestTry, hup, httpPath, hhook, applyHook, hcol, mkUri3]
  · intro i p hcol hp
    rw [huri]
    simp [readRequestTry, hup, httpPath, hhook, applyHook, hcol, mkUri4, hp]

/-- The connection state written for the explicit-port Host request. -/
def cHostPort : Connection :=
  readConn (handle_read_request ext0 false (some reqHostPort)
    freshConnection) freshConnection

/-- C5 witness: `Host: example.com:9000` with path `/chat` yields host
"example.com", port 9000, resource "/chat". -/
theorem http_host_uri_spec_witness :
    (findColon (reqHostPort.header "Host") = none →
      cHostPort.m_uri =
        some { secure := ext0.is_secure, host := reqHostPort.header "Host",
               port := uriDefaultPort ext0.is_secure,
               resource := reqHostPort.uri })
    ∧ (∀ i p, findColon (reqHostPort.header "Host") = some i →
        parsePort (strDropFrom (reqHostPort.header "Host") (i + 1))
          = some p →
        cHostPort.m_uri =
          some { secure := ext0.is_secure,
                 host := strTake (reqHostPort.header "Host") i,
                 port := p, resource := reqHostPort.uri }) :=
  http_host_uri_spec ext0 reqHostPort freshConnection
    (idEffect { freshConnection with m_request := reqHostPort }) rfl rfl

/-- C7 counterexample: the claim quantifies over every connection whose
response write completes without transport error, but on the
version-rejection path (here version 99: status 400, `m_uri` never
populated) the error-free write completion does NOT close the connection
gracefully — `handle_write_response` dereferences the null uri handle
inside `log_open_result` (line 300 runs before the status check at line
302) instead of reaching `terminate(true)`. -/
theorem write_disposition_counterexample :
    c99.m_response.statusCode = 400
    ∧ (write_response [] c99).m_response.statusCode = 400
    ∧ (write_response [] c99).m_uri = none
    ∧ handle_write_response false (write_response [] c99) = .nullDeref
    ∧ ∀ d, handle_write_response false (write_response [] c99)
        ≠ .closedGracefully d := by
  refine ⟨rfl, rfl, rfl, rfl, ?_⟩
  intro d h
  rw [show handle_write_response false (write_response [] c99)
    = .nullDeref from rfl] at h
  exact WriteOutcome.noConfusion h

/-- C7 (amended): after an error-free response write on a connection
whose uri handle was populated (true of the successful-handshake and
plain-HTTP paths, but not of the error paths that reject before the uri
is set — there `log_open_result` dereferences the null handle instead,
see the counterexample): status 101 transitions the state to OPEN and
invokes `on_open` exactly once (then hands off to the frame read loop);
any other status closes gracefully via `terminate(true)` with the
connection unchanged — the state never becomes OPEN and `on_open` is
never invoked. -/
theorem write_disposition_spec (c : Connection) (u : Uri)
    (hu : c.m_uri = some u) :
    (c.m_response.statusCode = 101 →
      handle_write_response false c = .opened { c with m_state := .OPEN }
      ∧ onOpenCount (handle_write_response false c) = 1)
    ∧ (c.m_response.statusCode ≠ 101 →
        handle_write_response false c = .closedGracefully c
        ∧ onOpenCount (handle_write_response false c) = 0
        ∧ ∀ c2, handle_write_response false c ≠ .opened c2) := by
  constructor
  · intro h101
    simp [handle_write_response, log_open_result, hu, h101, onOpenCount]
  · intro hne
    have hb : (c.m_response.statusCode != 101) = true := by simpa using hne
    simp [handle_write_response, log_open_result, hu, hb, onOpenCount]

/-- A connection about to be opened: uri populated, status 101. -/
def conn101 : Connection :=
  { freshConnection with
    m_uri := some (mkUri3 false "example.com" "/"),
    m_response := { statusCode := 101 } }

/-- C7 witness: the 101-status connection opens with one `on_open`. -/
theorem write_disposition_spec_witness :
    (conn101.m_response.statusCode = 101 →
      handle_write_response false conn101
        = .opened { conn101 with m_state := .OPEN }
      ∧ onOpenCount (handle_write_response false conn101) = 1)
    ∧ (conn101.m_response.statusCode ≠ 101 →
        handle_write_response false conn101 = .closedGracefully conn101
        ∧ onOpenCount (handle_write_response false conn101) = 0
        ∧ ∀ c2, handle_write_response false conn101 ≠ .opened c2) :=
  write_disposition_spec conn101 (mkUri3 false "example.com" "/") rfl

/-- An already-OPEN connection that still remembers the client's offers. -/
def openConn : Connection :=
  { freshConnection with
    m_state := .OPEN,
    m_requested_subprotocols := ["chat"],
    m_requested_extensions := ["deflate"] }

/-- C8 counterexample: the setters perform no state check — calling
`select_subprotocol`/`select_extension` on an OPEN connection succeeds
and mutates `m_subprotocol`/`m_extensions`, so a call made outside
CONNECTING does change the fields. -/
theorem negotiation_state_guard_counterexample :
    openConn.m_state = SessionState.OPEN
    ∧ select_subprotocol openConn "chat"
        = .ok { openConn with m_subprotocol := "chat" }
    ∧ ({ openConn with m_subprotocol := "chat" } : Connection).m_subprotocol
        ≠ openConn.m_subprotocol
    ∧ select_extension openConn "deflate"
        = .ok { openConn with m_extensions := ["deflate"] }
    ∧ ({ openConn with m_extensions := ["deflate"] } : Connection).m_extensions
        ≠ openConn.m_extensions := by
  refine ⟨rfl, rfl, by decide, rfl, by decide⟩

/-- The application hooks return without touching the negotiation fields
(`select_subprotocol`/`select_extension` are not called by the hook). -/
def HooksPreserveNegotiation (ext : Externals) : Prop :=
  (∀ c eff, ext.handler_validate c = .ok eff →
    eff.subprotocol = c.m_subprotocol ∧ eff.extensions = c.m_extensions)
  ∧ (∀ c eff, ext.handler_http c = .ok eff →
    eff.subprotocol = c.m_subprotocol ∧ eff.extensions = c.m_extensions)

theorem wsValidate_negotiation_fields (ext : Externals) (req : HttpRequest)
    (c : Connection)
    (hpres : ∀ c1 eff, ext.handler_validate c1 = .ok eff →
      eff.subprotocol = c1.m_subprotocol
      ∧ eff.extensions = c1.m_extensions) :
    (wsValidate ext req c).1.m_subprotocol = c.m_subprotocol
    ∧ (wsValidate ext req c).1.m_extensions = c.m_extensions := by
  unfold wsValidate
  split
  · simp
  · try dsimp only
    split
    · simp
    · try dsimp only
      split
      · simp
      · rename_i eff heq
        obtain ⟨h1, h2⟩ := hpres _ _ heq
        simp [applyHook, h1, h2]

theorem httpPath_negotiation_fields (ext : Externals) (req : HttpRequest)
    (c : Connection)
    (hpres : ∀ c1 eff, ext.handler_http c1 = .ok eff →
      eff.subprotocol = c1.m_subprotocol
      ∧ eff.extensions = c1.m_extensions) :
    (httpPath ext req c).1.m_subprotocol = c.m_subprotocol
    ∧ (httpPath ext req c).1.m_extensions = c.m_extensions := by
  unfold httpPath
  split
  · simp
  · rename_i eff heq
    obtain ⟨h1, h2⟩ := hpres _ _ heq
    try dsimp only
    split
    · simp [applyHook, h1, h2]
    · try dsimp only
      split <;> simp [applyHook, h1, h2]

theorem readRequestTry_negotiation_fields (ext : Externals)
    (parsed : Option HttpRequest) (c : Connection)
    (hpres : HooksPreserveNegotiation ext) :
    (readRequestTry ext parsed c).1.m_subprotocol = c.m_subprotocol
    ∧ (readRequestTry ext parsed c).1.m_extensions = c.m_extensions := by
  cases parsed with
  | none => simp [readRequestTry]
  | some req =>
    by_cases hup : ifind_first (req.header "Upgrade") "websocket" = true
    · by_cases hv : req.header "Sec-WebSocket-Version" = ""
      · simp [readRequestTry, hup, hv]
      · have hb : (req.header "Sec-WebSocket-Version" == "") = false := by
          simpa using hv
        cases hb0 : (atoi (req.header "Sec-WebSocket-Version") == 0)
        · cases hss : (atoi (req.header "Sec-WebSocket-Version") == 7 ||
              atoi (req.header "Sec-WebSocket-Version") == 8 ||
              atoi (req.header "Sec-WebSocket-Version") == 13)
          · simp [readRequestTry, hup, hb, hb0, hss]
          · obtain ⟨h1, h2⟩ := wsValidate_negotiation_fields ext req
              { c with
                m_request := req,
                m_version := atoi (req.header "Sec-WebSocket-Version"),
                m_processorSet := true } hpres.1
            simp only [readRequestTry, hup, hb, hb0, hss]
            simp only [Bool.true_eq_false, if_false, if_true,
              Bool.false_eq_true] at h1 h2 ⊢
            exact ⟨h1, h2⟩
        · simp [readRequestTry, hup, hb, hb0]
    · have hb : ifind_first (req.header "Upgrade") "websocket" = false := by
        simpa using hup
      obtain ⟨h1, h2⟩ := httpPath_negotiation_fields ext req
        { c with m_request := req } hpres.2
      simp only [readRequestTry, hb, Bool.false_eq_true, if_false]
      exact ⟨h1, h2⟩

/-- C8 (amended): within the server role's code, `m_subprotocol` and
`m_extensions` are written only through the two validated setters — a
completed `handle_read_request` (with hooks that do not call them),
`write_response` and `handle_write_response` leave both fields unchanged
— but the setters themselves never consult `m_state`: a call made while
OPEN or CLOSED mutates exactly as during CONNECTING (the CONNECTING-only
discipline is a documented convention, not enforced by the code). -/
theorem negotiation_mutation_spec (ext : Externals) (c c2 : Connection)
    (f : Flags) (parsed : Option HttpRequest) (v : String)
    (s : SessionState) (procHeaders : List (String × String)) (err : Bool)
    (hpres : HooksPreserveNegotiation ext)
    (hw : handle_read_request ext false parsed c = .wrote c2 f) :
    (select_subprotocol { c with m_state := s } v =
      (select_subprotocol c v).map (fun d => { d with m_state := s }))
    ∧ (select_extension { c with m_state := s } v =
      (select_extension c v).map (fun d => { d with m_state := s }))
    ∧ c2.m_subprotocol = c.m_subprotocol
    ∧ c2.m_extensions = c.m_extensions
    ∧ (write_response procHeaders c).m_subprotocol = c.m_subprotocol
    ∧ (write_response procHeaders c).m_extensions = c.m_extensions
    ∧ (handle_write_response err c = .aborted
       ∨ handle_write_response err c = .nullDeref
       ∨ handle_write_response err c = .closedGracefully c
       ∨ handle_write_response err c = .opened { c with m_state := .OPEN }) := by
  obtain ⟨_, hsub, hext, _, _, _⟩ :=
    handle_read_request_wrote ext parsed c c2 f hw
  obtain ⟨h1, h2⟩ := readRequestTry_negotiation_fields ext parsed c hpres
  refine ⟨?_, ?_, hsub.trans h1, hext.trans h2, ?_, ?_, ?_⟩
  · by_cases hv0 : v = ""
    · simp [select_subprotocol, hv0, Except.map]
    · by_cases hmem : v ∈ c.m_requested_subprotocols <;>
        simp [select_subprotocol, hv0, hmem, Except.map]
  · by_cases hv0 : v = ""
    · simp [select_extension, hv0, Except.map]
    · by_cases hmem : v ∈ c.m_requested_extensions <;>
        simp [select_extension, hv0, hmem, Except.map]
  · simp [write_response]
  · simp [write_response]
  · cases err
    · cases hu : c.m_uri
      · simp [handle_write_response, log_open_result, hu]
      · cases hb : (c.m_response.statusCode != 101) <;>
          simp [handle_write_response, log_open_result, hu, hb]
    · simp [handle_write_response]

/-- The connection written for the bare-Host plain-HTTP request. -/
def cHostBare : Connection :=
  readConn (handle_read_request ext0 false (some reqHostBare)
    freshConnection) freshConnection

/-- The flags for the bare-Host plain-HTTP request. -/
def fHostBare : Flags :=
  readFlags (handle_read_request ext0 false (some reqHostBare)
    freshConnection)

/-- C8 witness: the amended statement at a concrete run (no-op hooks,
plain-HTTP request, probe value "x", probe state OPEN). -/
theorem negotiation_mutation_spec_witness :
    (select_subprotocol { freshConnection with m_state := SessionState.OPEN }
        "x" =
      (select_subprotocol freshConnection "x").map
        (fun d => { d with m_state := SessionState.OPEN }))
    ∧ (select_extension { freshConnection with m_state := SessionState.OPEN }
        "x" =
      (select_extension freshConnection "x").map
        (fun d => { d with m_state := SessionState.OPEN }))
    ∧ cHostBare.m_subprotocol = freshConnection.m_subprotocol
    ∧ cHostBare.m_extensions = freshConnection.m_extensions
    ∧ (write_response [] freshConnection).m_subprotocol
        = freshConnection.m_subprotocol
    ∧ (write_response [] freshConnection).m_extensions
        = freshConnection.m_extensions
    ∧ (handle_write_response false freshConnection = .aborted
       ∨ handle_write_response false freshConnection = .nullDeref
       ∨ handle_write_response false freshConnection
           = .closedGracefully freshConnection
       ∨ handle_write_response false freshConnection
           = .opened { freshConnection with m_state := .OPEN }) :=
  negotiation_mutation_spec ext0 freshConnection cHostBare fHostBare
    (some reqHostBare) "x" SessionState.OPEN [] false
    ⟨fun c eff h => by
        simp only [ext0, Except.ok.injEq] at h
        subst h
        exact ⟨rfl, rfl⟩,
      fun c eff h => by
        simp only [ext0, Except.ok.injEq] at h
        subst h
        exact ⟨rfl, rfl⟩⟩
    (handle_read_request_isWrote ext0 (some reqHostBare) freshConnection)

/-- C9: in a 101 response assembled by `write_response` (starting from a
response that does not already carry the two negotiation headers, with
processor handshake headers that do not either): the
`Sec-WebSocket-Protocol` header is present exactly when a non-empty
subprotocol was selected (and then carries it), and no
`Sec-WebSocket-Extensions` header is ever emitted, no matter how many
extensions were accepted. -/
theorem write_response_headers_spec (c : Connection)
    (procHeaders : List (String × String))
    (h101 : c.m_response.statusCode = 101)
    (hp0 : hasHeader c.m_response.headers "Sec-WebSocket-Protocol" = false)
    (he0 : hasHeader c.m_response.headers "Sec-WebSocket-Extensions" = false)
    (hp1 : hasHeader procHeaders "Sec-WebSocket-Protocol" = false)
    (he1 : hasHeader procHeaders "Sec-WebSocket-Extensions" = false) :
    (hasHeader (write_response procHeaders c).m_response.headers
        "Sec-WebSocket-Protocol" = true ↔ c.m_subprotocol ≠ "")
    ∧ (c.m_subprotocol ≠ "" →
        getHeader (write_response procHeaders c).m_response.headers
          "Sec-WebSocket-Protocol" = c.m_subprotocol)
    ∧ hasHeader (write_response procHeaders c).m_response.headers
        "Sec-WebSocket-Extensions" = false := by
  have hx1 : ikey "Sec-WebSocket-Protocol" "Server" = false := by decide
  have hx2 : ikey "Server" "Sec-WebSocket-Protocol" = false := by decide
  have hx3 : ikey "Sec-WebSocket-Extensions" "Server" = false := by decide
  have hx4 : ikey "Server" "Sec-WebSocket-Extensions" = false := by decide
  have hx5 : ikey "Sec-WebSocket-Extensions" "Sec-WebSocket-Protocol"
      = false := by decide
  have hx6 : ikey "Sec-WebSocket-Protocol" "Sec-WebSocket-Extensions"
      = false := by decide
  by_cases hsub : c.m_subprotocol = ""
  · have hb : (c.m_subprotocol != "") = false := by simpa using hsub
    refine ⟨?_, ?_, ?_⟩
    · simp [write_response, h101, hb, hasHeader_replace_other hx1 hx2,
        hasHeader_append, hp0, hp1, hsub]
    · intro h
      exact absurd hsub h
    · simp [write_response, h101, hb, hasHeader_replace_other hx3 hx4,
        hasHeader_append, he0, he1]
  · have hb : (c.m_subprotocol != "") = true := by simpa using hsub
    refine ⟨?_, ?_, ?_⟩
    · simp [write_response, h101, hb, hasHeader_replace_other hx1 hx2,
        hasHeader_replace_self, hsub]
    · intro _
      simp [write_response, h101, hb, getHeader_replace_other hx1 hx2,
        getHeader_replace_self]
    · simp [write_response, h101, hb, hasHeader_replace_other hx3 hx4,
        hasHeader_replace_other hx5 hx6, hasHeader_append, he0, he1]

/-- A 101 connection with subprotocol "chat" selected. -/
def connSub : Connection :=
  { freshConnection with
    m_subprotocol := "chat",
    m_response := { statusCode := 101 } }

/-- C9 witness: with subprotocol "chat" and a processor accept header,
the assembled response carries `Sec-WebSocket-Protocol: chat` and no
`Sec-WebSocket-Extensions`. -/
theorem write_response_headers_spec_witness :
    (hasHeader (write_response [("Sec-WebSocket-Accept", "k")]
        connSub).m_response.headers "Sec-WebSocket-Protocol" = true
      ↔ connSub.m_subprotocol ≠ "")
    ∧ (connSub.m_subprotocol ≠ "" →
        getHeader (write_response [("Sec-WebSocket-Accept", "k")]
          connSub).m_response.headers "Sec-WebSocket-Protocol"
          = connSub.m_subprotocol)
    ∧ hasHeader (write_response [("Sec-WebSocket-Accept", "k")]
        connSub).m_response.headers "Sec-WebSocket-Extensions" = false :=
  write_response_headers_spec connSub [("Sec-WebSocket-Accept", "k")]
    rfl rfl rfl (by decide) (by decide)

end WebsocketppServer
